import Mathlib

/-!
Shallow embedding of the claude-dialog repository (Rust) in Lean 4.

Each definition mirrors one Rust item:
- `ClaudeCommand` / `ClaudeCommand.build_args` / `execute_claude`
  from src/claude_executor.rs
- `SystemPromptConfig` / `load_system_prompt` from src/prompt.rs
- `DialogConfig`, `is_exit_command`, `read_input` and the per-line step of
  `DialogLoop::run` from src/dialog.rs
- `Args` / `parse_args` from src/cli.rs
- the `DialogConfig` construction of `main` from src/main.rs

The filesystem is modelled as a partial map from paths to contents
(`String → Option String`); a path mapped to `none` is a path whose
`fs::read_to_string` fails. Fallible Rust functions returning
`anyhow::Result` become `Except String` with the error carrying the
rendered context message.
-/

/-- Mirror of `ClaudeCommand` (src/claude_executor.rs): the prompt plus the
three optional configuration fields. -/
structure ClaudeCommand where
  prompt : String
  system_prompt : Option String
  append_prompt : Option String
  model : Option String
deriving DecidableEq, Repr

/-- Mirror of `ClaudeCommand::build_args` (src/claude_executor.rs lines
111-135): starts from `["--continue", "-p", prompt]`, pushes each optional
flag/value pair when the field is `Some`, then always pushes
`--allowedTools Write Edit`. -/
def ClaudeCommand.build_args (c : ClaudeCommand) : List String :=
  let args := ["--continue", "-p", c.prompt]
  let args := match c.system_prompt with
    | some system_prompt => args ++ ["--system-prompt", system_prompt]
    | none => args
  let args := match c.append_prompt with
    | some append_prompt => args ++ ["--append-system-prompt", append_prompt]
    | none => args
  let args := match c.model with
    | some model => args ++ ["--model", model]
    | none => args
  args ++ ["--allowedTools", "Write", "Edit"]

/-- The argument-list segment contributed by the `system_prompt` field. -/
def sysSegment : Option String → List String
  | some v => ["--system-prompt", v]
  | none => []

/-- The argument-list segment contributed by the `append_prompt` field. -/
def appendSegment : Option String → List String
  | some v => ["--append-system-prompt", v]
  | none => []

/-- The argument-list segment contributed by the `model` field. -/
def modelSegment : Option String → List String
  | some v => ["--model", v]
  | none => []

/-- Decomposition of `build_args` into its five ordered segments. -/
lemma build_args_eq (p : String) (s a m : Option String) :
    ClaudeCommand.build_args ⟨p, s, a, m⟩ =
      ["--continue", "-p", p] ++ sysSegment s ++ appendSegment a
        ++ modelSegment m ++ ["--allowedTools", "Write", "Edit"] := by
  cases s <;> cases a <;> cases m <;> rfl

deriving instance DecidableEq for Except

/-- C1: for every prompt and every combination of the three optional fields,
`build_args` produces exactly: `--continue`, `-p`, the literal prompt; then
the `--system-prompt` pair only if that field is present; then the
`--append-system-prompt` pair only if present; then the `--model` pair only
if present; ending unconditionally with `--allowedTools Write Edit`. -/
theorem C1_build_args_fixed_order (p : String) (s a m : Option String) :
    ClaudeCommand.build_args ⟨p, s, a, m⟩ =
      ["--continue", "-p", p]
        ++ (match s with | some v => ["--system-prompt", v] | none => [])
        ++ (match a with | some v => ["--append-system-prompt", v] | none => [])
        ++ (match m with | some v => ["--model", v] | none => [])
        ++ ["--allowedTools", "Write", "Edit"] := by
  cases s <;> cases a <;> cases m <;> rfl

/-- Counterexample to C5 as stated: with `system_prompt = some ""` the
builder still emits the `--system-prompt` pair, although the field does not
hold a non-empty string, so "pair appears iff the field holds a non-empty
string" fails. -/
theorem C5_counterexample :
    ¬ (("--system-prompt" ∈
          ClaudeCommand.build_args ⟨"hi", some "", none, none⟩) ↔
        (∃ v, (some "" : Option String) = some v ∧ v ≠ "")) := by
  intro h
  obtain ⟨v, hv, hne⟩ := h.mp (by decide)
  exact hne (Option.some.inj hv).symm

/-- C5 amended: the builder emits each optional flag/value pair exactly when
the corresponding field is present (`Some`), regardless of whether the
contained string is empty: the segment contributed by a field is non-empty
iff the field is `Some`. -/
theorem C5_pairs_iff_present (c : ClaudeCommand) :
    c.build_args =
      ["--continue", "-p", c.prompt] ++ sysSegment c.system_prompt
        ++ appendSegment c.append_prompt ++ modelSegment c.model
        ++ ["--allowedTools", "Write", "Edit"] ∧
    (∀ o : Option String, sysSegment o ≠ [] ↔ o.isSome) ∧
    (∀ o : Option String, appendSegment o ≠ [] ↔ o.isSome) ∧
    (∀ o : Option String, modelSegment o ≠ [] ↔ o.isSome) := by
  refine ⟨?_, ?_, ?_, ?_⟩
  · obtain ⟨p, s, a, m⟩ := c
    exact build_args_eq p s a m
  all_goals intro o; cases o <;> simp [sysSegment, appendSegment, modelSegment]

/-- Witness for C5 amended at a concrete configuration. -/
theorem C5_pairs_iff_present_witness :
    ClaudeCommand.build_args ⟨"hello", some "Sys", none, some "m1"⟩ =
      ["--continue", "-p", "hello", "--system-prompt", "Sys",
        "--model", "m1", "--allowedTools", "Write", "Edit"] ∧
    (sysSegment (some "Sys") ≠ [] ↔ (some "Sys").isSome) := by
  have h := C5_pairs_iff_present ⟨"hello", some "Sys", none, some "m1"⟩
  exact ⟨by rw [h.1]; rfl, h.2.1 (some "Sys")⟩

/-- Mirror of `SystemPromptConfig` (src/prompt.rs): a list of replacement
system-prompt files plus an optional append file. -/
structure SystemPromptConfig where
  system_prompt_files : List String
  append_prompt_file : Option String
deriving DecidableEq, Repr

/-- The filesystem model: a path reads to `some contents`, or `none` when
`fs::read_to_string` would fail on it. -/
def FileSystem : Type := String → Option String

/-- Mirror of the `for` loop in `load_system_prompt` (src/prompt.rs lines
112-118): read each replacement file in order, stopping at the first failure
with the wrapped context message `Failed to read system prompt file: {path}`. -/
def readPromptFiles (fs : FileSystem) : List String → Except String (List String)
  | [] => .ok []
  | file_path :: rest =>
    match fs file_path with
    | some content => (readPromptFiles fs rest).map (content :: ·)
    | none => .error ("Failed to read system prompt file: " ++ file_path)

/-- Mirror of `load_system_prompt` (src/prompt.rs lines 109-131): when the
replacement list is non-empty, read all files and join with `"\n\n"`;
otherwise read the append file if given (context message
`Failed to read append prompt file: {path}`); otherwise return `""`. -/
def load_system_prompt (fs : FileSystem) (config : SystemPromptConfig) :
    Except String String :=
  if !config.system_prompt_files.isEmpty then
    (readPromptFiles fs config.system_prompt_files).map (String.intercalate "\n\n")
  else match config.append_prompt_file with
    | some append_file =>
      match fs append_file with
      | some content => .ok content
      | none => .error ("Failed to read append prompt file: " ++ append_file)
    | none => .ok ""

/-- One string occurs inside another (as a contiguous substring). -/
def containsSub (msg path : String) : Prop := ∃ a b, msg = a ++ path ++ b

/-- Reading a list of all-readable files yields exactly their contents in
order. -/
lemma readPromptFiles_ok (fs : FileSystem) (files : List String)
    (h : ∀ f ∈ files, (fs f).isSome) :
    readPromptFiles fs files = .ok (files.map fun f => (fs f).getD "") := by
  induction files with
  | nil => rfl
  | cons f rest ih =>
    obtain ⟨c, hc⟩ := Option.isSome_iff_exists.mp (h f (List.mem_cons_self f rest))
    have hrest := ih fun g hg => h g (List.mem_cons_of_mem f hg)
    simp [readPromptFiles, Except.map, hc, hrest]

/-- If some file in the list is unreadable, reading fails with the context
message naming one of the unreadable files. -/
lemma readPromptFiles_error (fs : FileSystem) (files : List String)
    (h : ∃ f ∈ files, fs f = none) :
    ∃ p ∈ files, fs p = none ∧
      readPromptFiles fs files =
        .error ("Failed to read system prompt file: " ++ p) := by
  induction files with
  | nil => simp at h
  | cons f rest ih =>
    cases hf : fs f with
    | none => exact ⟨f, List.mem_cons_self f rest, hf, by simp [readPromptFiles, hf]⟩
    | some c =>
      obtain ⟨g, hg, hgn⟩ := h
      rcases List.mem_cons.mp hg with rfl | hg2
      · rw [hf] at hgn; cases hgn
      · obtain ⟨p, hp, hpn, herr⟩ := ih ⟨g, hg2, hgn⟩
        exact ⟨p, List.mem_cons_of_mem f hp, hpn, by simp [readPromptFiles, Except.map, hf, herr]⟩

/-- C2: with a non-empty replacement list whose files are all readable, the
loader returns the raw contents joined by exactly two newline characters
between consecutive files, and the append file is ignored entirely in this
branch (the result does not depend on it at all). -/
theorem C2_replacement_files_joined (fs : FileSystem) (files : List String)
    (append1 append2 : Option String) (hne : files ≠ []) :
    ((∀ f ∈ files, (fs f).isSome) →
      load_system_prompt fs ⟨files, append1⟩ =
        .ok (String.intercalate "\n\n" (files.map fun f => (fs f).getD ""))) ∧
    load_system_prompt fs ⟨files, append1⟩ =
      load_system_prompt fs ⟨files, append2⟩ := by
  have hb : files.isEmpty = false := by
    cases files with
    | nil => exact absurd rfl hne
    | cons f rest => rfl
  constructor
  · intro hall
    simp [load_system_prompt, Except.map, hb, readPromptFiles_ok fs files hall]
  · simp [load_system_prompt, hb]

/-- Witness for C2: two readable files with contents `First prompt` and
`Second prompt` load to `First prompt\n\nSecond prompt`, whatever the append
field holds. -/
theorem C2_replacement_files_joined_witness :
    load_system_prompt
        (fun p => if p = "a.md" then some "First prompt"
          else if p = "b.md" then some "Second prompt" else none)
        ⟨["a.md", "b.md"], some "c.md"⟩ =
      .ok "First prompt\n\nSecond prompt" := by
  have h := C2_replacement_files_joined
    (fun p => if p = "a.md" then some "First prompt"
      else if p = "b.md" then some "Second prompt" else none)
    ["a.md", "b.md"] (some "c.md") none (by decide)
  have h2 := h.1 (by decide)
  rw [h2]; rfl

/-- C6: with an empty replacement list, the loader returns the append file
raw contents unchanged when an append path is given and readable, and the
empty string when no append path is given. -/
theorem C6_append_or_empty (fs : FileSystem) :
    (∀ append_file content, fs append_file = some content →
      load_system_prompt fs ⟨[], some append_file⟩ = .ok content) ∧
    load_system_prompt fs ⟨[], none⟩ = .ok "" := by
  constructor
  · intro append_file content h
    simp [load_system_prompt, h]
  · rfl

/-- Witness for C6: a readable append file containing `Additional prompt\n`
loads unchanged, and the empty configuration loads to the empty string. -/
theorem C6_append_or_empty_witness :
    load_system_prompt (fun p => if p = "add.md" then some "Additional prompt\n" else none)
        ⟨[], some "add.md"⟩ = .ok "Additional prompt\n" ∧
    load_system_prompt (fun p => if p = "add.md" then some "Additional prompt\n" else none)
        ⟨[], none⟩ = .ok "" := by
  have h := C6_append_or_empty
    (fun p => if p = "add.md" then some "Additional prompt\n" else none)
  exact ⟨h.1 "add.md" "Additional prompt\n" (by decide), h.2⟩

/-- C7: whenever a referenced file cannot be read, the loader fails and the
error message contains the failing path: in the replacement branch the
message names an unreadable replacement file; in the append branch it names
the append file. -/
theorem C7_error_contains_path (fs : FileSystem) (files : List String)
    (append : Option String) :
    ((∃ f ∈ files, fs f = none) →
      ∃ p e, p ∈ files ∧ fs p = none ∧
        load_system_prompt fs ⟨files, append⟩ = .error e ∧ containsSub e p) ∧
    (∀ append_file, fs append_file = none →
      load_system_prompt fs ⟨[], some append_file⟩ =
        .error ("Failed to read append prompt file: " ++ append_file) ∧
      containsSub ("Failed to read append prompt file: " ++ append_file)
        append_file) := by
  constructor
  · intro h
    obtain ⟨p, hp, hpn, herr⟩ := readPromptFiles_error fs files h
    have hb : files.isEmpty = false := by
      cases files with
      | nil => simp at hp
      | cons f rest => rfl
    refine ⟨p, "Failed to read system prompt file: " ++ p, hp, hpn, ?_, ?_⟩
    · simp [load_system_prompt, Except.map, hb, herr]
    · exact ⟨"Failed to read system prompt file: ", "", by simp⟩
  · intro append_file h
    refine ⟨by simp [load_system_prompt, h], ?_⟩
    exact ⟨"Failed to read append prompt file: ", "", by simp⟩

/-- Witness for C7: loading a nonexistent replacement file and a nonexistent
append file each fail with a message containing the offending path. -/
theorem C7_error_contains_path_witness :
    (∃ p e, p ∈ ["missing.md"] ∧ (fun (_ : String) => (none : Option String)) p = none ∧
      load_system_prompt (fun _ => none) ⟨["missing.md"], none⟩ = .error e ∧
      containsSub e p) ∧
    load_system_prompt (fun _ => none) ⟨[], some "gone.md"⟩ =
      .error ("Failed to read append prompt file: " ++ "gone.md") := by
  have h := C7_error_contains_path (fun _ => none) ["missing.md"] none
  exact ⟨h.1 ⟨"missing.md", by decide, rfl⟩, (h.2 "gone.md" rfl).1⟩

/-- Character-wise lowercase map embedding the `str::to_lowercase` call in
`is_exit_command` (src/dialog.rs line 153). -/
def rustToLowercase (s : String) : String := ⟨s.data.map Char.toLower⟩

/-- Unicode white-space test embedding the `char::is_whitespace` predicate
used by `str::trim`. -/
def isRustWhitespace (c : Char) : Bool :=
  decide ((0x09 ≤ c.toNat ∧ c.toNat ≤ 0x0D) ∨ c.toNat = 0x20 ∨ c.toNat = 0x85 ∨
    c.toNat = 0xA0 ∨ c.toNat = 0x1680 ∨ (0x2000 ≤ c.toNat ∧ c.toNat ≤ 0x200A) ∨
    c.toNat = 0x2028 ∨ c.toNat = 0x2029 ∨ c.toNat = 0x202F ∨ c.toNat = 0x205F ∨
    c.toNat = 0x3000)

/-- Embedding of `str::trim`: drop white space from both ends. -/
def rustTrim (s : String) : String :=
  ⟨((s.data.dropWhile isRustWhitespace).reverse.dropWhile isRustWhitespace).reverse⟩

/-- Mirror of `DialogConfig` (src/dialog.rs): the three optional fields the
loop copies into every turn command. -/
structure DialogConfig where
  system_prompt : Option String
  append_prompt : Option String
  model : Option String
deriving DecidableEq, Repr

/-- Mirror of `DialogLoop::is_exit_command` (src/dialog.rs lines 152-155):
lowercase the input and compare with `exit` and `quit`. -/
def is_exit_command (input : String) : Bool :=
  let lower := rustToLowercase input
  lower == "exit" || lower == "quit"

/-- Mirror of `DialogLoop::read_input` (src/dialog.rs lines 192-203) applied
to the line the reader produced: trim it; `none` when the trimmed line is
empty, otherwise `some` of the trimmed line. -/
def read_input (line : String) : Option String :=
  let trimmed := rustTrim line
  if trimmed = "" then none else some trimmed

/-- Outcome of one iteration of `DialogLoop::run` on one stdin line:
re-prompt without dispatching, terminate, or dispatch a built command. -/
inductive LoopStep where
  | reprompt
  | terminated
  | dispatch (cmd : ClaudeCommand)
deriving DecidableEq, Repr

/-- Mirror of the body of the `loop` in `DialogLoop::run` (src/dialog.rs
lines 248-282) on one line read from stdin: trim; empty input continues the
loop; an exit command breaks; otherwise a `ClaudeCommand` is built from the
trimmed input and the configuration fields and executed. -/
def runStep (config : DialogConfig) (line : String) : LoopStep :=
  let input := rustTrim line
  if input = "" then .reprompt
  else if is_exit_command input then .terminated
  else .dispatch ⟨input, config.system_prompt, config.append_prompt, config.model⟩

/-- C3: `is_exit_command` accepts exactly the inputs whose lowercase form is
`exit` or `quit`, and any line whose trimmed form is such an input makes the
loop terminate without dispatching a turn. -/
theorem C3_exit_terminates (config : DialogConfig) (line : String) :
    (∀ s, is_exit_command s = true ↔
      (rustToLowercase s = "exit" ∨ rustToLowercase s = "quit")) ∧
    ((rustToLowercase (rustTrim line) = "exit" ∨
        rustToLowercase (rustTrim line) = "quit") →
      runStep config line = .terminated) := by
  have hiff : ∀ s, is_exit_command s = true ↔
      (rustToLowercase s = "exit" ∨ rustToLowercase s = "quit") := by
    intro s
    simp [is_exit_command]
  refine ⟨hiff, fun h => ?_⟩
  have hne : rustTrim line ≠ "" := by
    intro he
    rw [he] at h
    rcases h with h | h <;> exact absurd h (by decide)
  simp [runStep, hne, (hiff (rustTrim line)).mpr h]

/-- Witness for C3 on the line `  QUIT  `: the loop terminates. -/
theorem C3_exit_terminates_witness :
    runStep ⟨none, none, none⟩ "  QUIT  " = .terminated :=
  (C3_exit_terminates ⟨none, none, none⟩ "  QUIT  ").2 (Or.inr (by decide))

/-- C8: `read_input` returns `none` exactly on lines that trim to empty and
`some` of the trimmed line otherwise, and the loop re-prompts (rather than
terminating or dispatching) exactly on lines that trim to empty. -/
theorem C8_empty_line_reprompts (config : DialogConfig) (line : String) :
    (read_input line = none ↔ rustTrim line = "") ∧
    (rustTrim line ≠ "" → read_input line = some (rustTrim line)) ∧
    (runStep config line = .reprompt ↔ rustTrim line = "") := by
  refine ⟨?_, ?_, ?_⟩
  · by_cases h : rustTrim line = "" <;> simp [read_input, h]
  · intro h; simp [read_input, h]
  · constructor
    · intro h
      by_cases he : rustTrim line = ""
      · exact he
      · by_cases hx : is_exit_command (rustTrim line) = true <;>
          simp [runStep, he, hx] at h
    · intro h; simp [runStep, h]

/-- Witness for C8: a whitespace-only line re-prompts and reads as `none`;
an ordinary line reads as its trimmed text. -/
theorem C8_empty_line_reprompts_witness :
    read_input "   \n" = none ∧
    runStep ⟨none, none, none⟩ "   \n" = .reprompt ∧
    read_input "  hello  \n" = some "hello" := by
  have h1 := C8_empty_line_reprompts ⟨none, none, none⟩ "   \n"
  have h2 := C8_empty_line_reprompts ⟨none, none, none⟩ "  hello  \n"
  exact ⟨h1.1.mpr (by decide), (h1.2.2).mpr (by decide), by
    have := h2.2.1 (by decide)
    rw [this]; decide⟩

/-- Mirror of the `DialogConfig` construction in `main` (src/main.rs lines
78-90): `system_prompt` is the loaded prompt when non-empty, `append_prompt`
repeats the loaded prompt whenever an append file path was supplied. -/
def mainDialogConfig (system_prompt : String) (append_file_given : Bool)
    (model : Option String) : DialogConfig :=
  { system_prompt := if system_prompt ≠ "" then some system_prompt else none,
    append_prompt := if append_file_given then some system_prompt else none,
    model := model }

/-- C4: when only an append file is supplied and its loaded contents are
non-empty, `main` puts the same loaded content into both optional prompt
fields, so every dispatched turn builds an argument list containing both the
`--system-prompt` pair and the `--append-system-prompt` pair with identical
values. -/
theorem C4_append_duplicates_system (fs : FileSystem) (append_file content : String)
    (model : Option String) (line : String) (cmd : ClaudeCommand)
    (hread : fs append_file = some content) (hne : content ≠ "") :
    load_system_prompt fs ⟨[], some append_file⟩ = .ok content ∧
    (mainDialogConfig content true model).system_prompt = some content ∧
    (mainDialogConfig content true model).append_prompt = some content ∧
    (runStep (mainDialogConfig content true model) line = .dispatch cmd →
      List.IsInfix ["--system-prompt", content] cmd.build_args ∧
      List.IsInfix ["--append-system-prompt", content] cmd.build_args) := by
  have hsys : (mainDialogConfig content true model).system_prompt = some content := by
    simp [mainDialogConfig, hne]
  have happ : (mainDialogConfig content true model).append_prompt = some content := by
    simp [mainDialogConfig]
  refine ⟨by simp [load_system_prompt, hread], hsys, happ, fun hstep => ?_⟩
  have hcmd : cmd = ⟨rustTrim line, some content, some content, model⟩ := by
    by_cases he : rustTrim line = ""
    · simp [runStep, he] at hstep
    · by_cases hx : is_exit_command (rustTrim line) = true
      · simp [runStep, he, hx] at hstep
      · simp [runStep, he, hx, mainDialogConfig, hne] at hstep
        exact hstep.symm
  subst hcmd
  rw [build_args_eq]
  cases model with
  | none =>
    exact ⟨⟨["--continue", "-p", rustTrim line],
        ["--append-system-prompt", content, "--allowedTools", "Write", "Edit"], rfl⟩,
      ⟨["--continue", "-p", rustTrim line, "--system-prompt", content],
        ["--allowedTools", "Write", "Edit"], rfl⟩⟩
  | some m =>
    exact ⟨⟨["--continue", "-p", rustTrim line],
        ["--append-system-prompt", content, "--model", m,
          "--allowedTools", "Write", "Edit"], rfl⟩,
      ⟨["--continue", "-p", rustTrim line, "--system-prompt", content],
        ["--model", m, "--allowedTools", "Write", "Edit"], rfl⟩⟩

/-- Witness for C4: an append file containing `Extra` makes a turn on the
line `hello` carry both prompt pairs with the value `Extra`. -/
theorem C4_append_duplicates_system_witness :
    load_system_prompt (fun p => if p = "extra.md" then some "Extra" else none)
        ⟨[], some "extra.md"⟩ = .ok "Extra" ∧
    List.IsInfix ["--system-prompt", "Extra"]
      (ClaudeCommand.build_args ⟨"hello", some "Extra", some "Extra", none⟩) ∧
    List.IsInfix ["--append-system-prompt", "Extra"]
      (ClaudeCommand.build_args ⟨"hello", some "Extra", some "Extra", none⟩) := by
  have h := C4_append_duplicates_system
    (fun p => if p = "extra.md" then some "Extra" else none)
    "extra.md" "Extra" none "hello\n" ⟨"hello", some "Extra", some "Extra", none⟩
    (by decide) (by decide)
  exact ⟨h.1, h.2.2.2 (by decide)⟩

/-- Mirror of `Args` (src/cli.rs): repeatable replacement-file values, an
optional append-file value, an optional model value. -/
structure Args where
  system_prompt_files : List String
  append_prompt_file : Option String
  model : Option String
deriving DecidableEq, Repr

/-- Modelled from the spec: the flag-scanning engine of the clap crate is
not part of this repository; this follows the attributes declared on `Args`
(src/cli.rs lines 60-87): `--system-prompt FILE` is repeatable and
accumulates, `--append-system-prompt FILE` and `--model MODEL` take single
values, anything else is an unrecognized token and fails. -/
def parseFlags : List String → Args → Except String Args
  | [], acc => .ok acc
  | "--system-prompt" :: value :: rest, acc =>
    parseFlags rest { acc with system_prompt_files := acc.system_prompt_files ++ [value] }
  | "--append-system-prompt" :: value :: rest, acc =>
    parseFlags rest { acc with append_prompt_file := some value }
  | "--model" :: value :: rest, acc =>
    parseFlags rest { acc with model := some value }
  | other :: _, _ => .error ("error: unexpected argument: " ++ other)

/-- Modelled from the spec: the usage error the parser produces when both
file-based prompt options are supplied, naming the conflicting flags. -/
def conflictMessage : String :=
  "error: the argument --append-system-prompt <FILE> cannot be used with --system-prompt <FILE>"

/-- Modelled from the spec: `parse_args` (src/cli.rs lines 126-130) runs the
clap-derived parser on the raw command line (first token is the program
name) and fails with a usage error naming the conflict when both
`--system-prompt` and `--append-system-prompt` were supplied, per the
`conflicts_with` attribute at src/cli.rs line 73. -/
def parse_args (argv : List String) : Except String Args :=
  match argv with
  | [] => .error "error: missing program name"
  | _ :: rest =>
    match parseFlags rest ⟨[], none, none⟩ with
    | .error e => .error e
    | .ok args =>
      if !args.system_prompt_files.isEmpty && args.append_prompt_file.isSome then
        .error conflictMessage
      else
        .ok args

/-- C9: the parser never produces a configuration holding both a replacement
file and an append file, and every command line whose flags scan to both a
non-empty replacement list and an append file fails with the usage error
naming the conflict. -/
theorem C9_both_prompt_flags_conflict :
    (∀ argv args, parse_args argv = .ok args →
      args.system_prompt_files = [] ∨ args.append_prompt_file = none) ∧
    (∀ prog rest args, parseFlags rest ⟨[], none, none⟩ = .ok args →
      args.system_prompt_files ≠ [] → args.append_prompt_file.isSome →
      parse_args (prog :: rest) = .error conflictMessage ∧
      containsSub conflictMessage "--system-prompt" ∧
      containsSub conflictMessage "--append-system-prompt") := by
  constructor
  · intro argv args hok
    cases argv with
    | nil => simp [parse_args] at hok
    | cons prog rest =>
      cases hp : parseFlags rest ⟨[], none, none⟩ with
      | error e => simp [parse_args, hp] at hok
      | ok a =>
        by_cases h1 : a.system_prompt_files.isEmpty = true
        · have hc : (!a.system_prompt_files.isEmpty && a.append_prompt_file.isSome)
              = false := by simp [h1]
          simp [parse_args, hp, hc] at hok
          obtain rfl := hok
          exact Or.inl (List.isEmpty_iff.mp h1)
        · by_cases h2 : a.append_prompt_file.isSome = true
          · have hc : (!a.system_prompt_files.isEmpty && a.append_prompt_file.isSome)
                = true := by
              simp [Bool.not_eq_true _ |>.mp h1, h2]
            simp [parse_args, hp, hc] at hok
          · have hc : (!a.system_prompt_files.isEmpty && a.append_prompt_file.isSome)
                = false := by simp [Bool.not_eq_true _ |>.mp h2]
            simp [parse_args, hp, hc] at hok
            obtain rfl := hok
            exact Or.inr (Option.not_isSome_iff_eq_none.mp h2)
  · intro prog rest args hp hne hsome
    have hb : args.system_prompt_files.isEmpty = false := by
      cases hl : args.system_prompt_files with
      | nil => exact absurd hl hne
      | cons x xs => rfl
    refine ⟨by simp [parse_args, hp, hb, hsome], ?_, ?_⟩
    · exact ⟨"error: the argument --append-system-prompt <FILE> cannot be used with ",
        " <FILE>", rfl⟩
    · exact ⟨"error: the argument ",
        " <FILE> cannot be used with --system-prompt <FILE>", rfl⟩

/-- Witness for C9: supplying `--system-prompt a.md --append-system-prompt
b.md` makes the parser fail with the conflict message. -/
theorem C9_both_prompt_flags_conflict_witness :
    parse_args ["claude-dialog", "--system-prompt", "a.md",
        "--append-system-prompt", "b.md"] = .error conflictMessage := by
  have h := C9_both_prompt_flags_conflict.2 "claude-dialog"
    ["--system-prompt", "a.md", "--append-system-prompt", "b.md"]
    ⟨["a.md"], some "b.md", none⟩ rfl (by decide) rfl
  exact h.1

/-- Outcome of the operating system spawning the external binary named
`claude`: the spawn itself can fail (binary missing or not executable), or
the process runs and exits with a status code. -/
inductive SpawnOutcome where
  | launchFailure (io_error : String)
  | exited (code : Int)
deriving DecidableEq, Repr

/-- The two error shapes `execute_claude` produces: the context-wrapped
launch error and the bail error carrying the observed nonzero status. -/
inductive ExecError where
  | launch (io_error : String)
  | nonzeroExit (code : Int)
deriving DecidableEq, Repr

/-- Rendered message of each error, mirroring the `context` string and the
`bail!` format string in src/claude_executor.rs lines 184 and 187 (the
status displays as `exit status: {code}`). -/
def ExecError.message : ExecError → String
  | .launch io_error => "Failed to execute claude command: " ++ io_error
  | .nonzeroExit code => "Claude command failed with status: exit status: " ++ toString code

/-- Mirror of `execute_claude` (src/claude_executor.rs lines 176-191) as a
function of the spawn outcome: a spawn failure becomes the launch error, a
nonzero exit becomes the nonzero-exit error, exit status zero succeeds. -/
def execute_claude (outcome : SpawnOutcome) : Except ExecError Unit :=
  match outcome with
  | .launchFailure io_error => .error (.launch io_error)
  | .exited code => if code = 0 then .ok () else .error (.nonzeroExit code)

/-- C10: the runner succeeds exactly on exit status zero; a failed spawn
yields the launch error, a nonzero exit yields the distinct error carrying
the observed status, and the two failure kinds are distinguishable both as
values and by their rendered messages. -/
theorem C10_exit_status_errors (outcome : SpawnOutcome) :
    (execute_claude outcome = .ok () ↔ outcome = .exited 0) ∧
    (∀ io_error, execute_claude (.launchFailure io_error) =
      .error (.launch io_error)) ∧
    (∀ code, code ≠ 0 → execute_claude (.exited code) =
      .error (.nonzeroExit code)) ∧
    (∀ io_error code, ExecError.launch io_error ≠ ExecError.nonzeroExit code) ∧
    (∀ io_error code, (ExecError.launch io_error).message ≠
      (ExecError.nonzeroExit code).message) := by
  refine ⟨?_, ?_, ?_, ?_, ?_⟩
  · cases outcome with
    | launchFailure io_error => simp [execute_claude]
    | exited code =>
      by_cases hc : code = 0 <;> simp [execute_claude, hc]
  · exact fun io_error => rfl
  · exact fun code hc => by simp [execute_claude, hc]
  · exact fun io_error code h => by cases h
  · intro io_error code h
    have h2 := congrArg (fun s => s.data.head?) h
    simp [ExecError.message, String.data_append] at h2

/-- Witness for C10: exit status 0 succeeds, exit status 1 fails carrying
status 1, and that failure differs from a launch failure. -/
theorem C10_exit_status_errors_witness :
    execute_claude (.exited 0) = .ok () ∧
    execute_claude (.exited 1) = .error (.nonzeroExit 1) ∧
    ExecError.launch "No such file or directory" ≠ ExecError.nonzeroExit 1 := by
  have h0 := C10_exit_status_errors (.exited 0)
  refine ⟨h0.1.mpr rfl, h0.2.2.1 1 (by decide),
    h0.2.2.2.1 "No such file or directory" 1⟩
